import Mathlib

/-!
Shallow embedding of the per-voice control core of the yarns MIDI-to-CV
interface (src/yarns/voice.cc), together with proofs of the specified
properties.

Conventions:
- C signed 32-bit arithmetic is modelled on ℤ (the claims below never
  exercise signed overflow); C unsigned 32-bit phase accumulators are
  modelled on ℕ with an explicit `% 2^32` at each accumulation, because
  the code relies on wraparound semantics there.
- C truncating division (`/` on int32_t) is `Int.tdiv`; arithmetic right
  shift on a signed value is `asr` (floor division by a power of two);
  logical shifts on unsigned values are ℕ shifts.
- Conversion of a signed intermediate to a uint16_t output is
  `toUInt16` (two's-complement reduction mod 2^16).
- The read-only resource tables (lut_portamento_increments,
  lut_lfo_increments, lut_env_expo via Interpolate824, and the trigger
  waveform tables) live in yarns/resources.cc, outside the modelled
  core; they are injected as an abstract `Tables` record, exactly as
  the design notes prescribe for a reimplementation.
-/

namespace Yarns

/-- kOctave = 12 << 7: one octave in 1/128-semitone units. -/
def kOctave : ℤ := 12 * 128

/-- kMaxNote = 120 << 7: exclusive upper bound of the valid note range. -/
def kMaxNote : ℤ := 120 * 128

/-- Size of the per-octave calibration table `calibrated_dac_code_`. -/
def kNumOctaves : ℕ := 11

/-- Arithmetic shift right of a signed value: floor division by 2^n,
matching C arithmetic shift on int32_t. -/
def asr (x : ℤ) (n : ℕ) : ℤ := Int.fdiv x (2 ^ n)

/-- Conversion of a signed intermediate to uint16_t: two's-complement
reduction modulo 2^16 (Euclidean remainder, then the nonnegative value). -/
def toUInt16 (x : ℤ) : ℕ := (Int.emod x 65536).toNat

/-- The while loop of `NoteToDacCode`, made structural on a fuel argument:
while (note >= kOctave) \x7b note -= kOctave; ++octave; \x7d.  Each iteration
decreases note by kOctave = 1536 ≥ 1, so fuel = note always suffices. -/
def octaveLoopGo : ℕ → ℕ → ℕ → ℕ × ℕ
  | 0, octave, note => (octave, note)
  | fuel + 1, octave, note =>
    if note < 1536 then (octave, note)
    else octaveLoopGo fuel (octave + 1) (note - 1536)

/-- Octave decomposition of a (clamped, hence nonnegative) note value:
returns (octave, remainder within the octave). -/
def octaveLoop (note : ℕ) : ℕ × ℕ := octaveLoopGo note 0 note

/-- The two clamping ifs at the head of `Voice::NoteToDacCode`:
if (note <= 0) note = 0; if (note >= kMaxNote) note = kMaxNote - 1. -/
def clampNote (note : ℤ) : ℤ :=
  let n1 : ℤ := if note ≤ 0 then 0 else note
  if kMaxNote ≤ n1 then kMaxNote - 1 else n1

/-- `Voice::NoteToDacCode`: clamp, octave decomposition, then exact
integer linear interpolation between adjacent calibration entries:
return a + ((b - a) * note / kOctave), truncated to uint16_t.
`cal` is the `calibrated_dac_code_` table (uint16_t entries). -/
def NoteToDacCode (cal : ℕ → ℕ) (note : ℤ) : ℕ :=
  let p := octaveLoop (clampNote note).toNat
  let octave := p.1
  let a : ℤ := cal octave
  let b : ℤ := cal (octave + 1)
  toUInt16 (a + Int.tdiv ((b - a) * (p.2 : ℤ)) kOctave)

example : clampNote (-5) = 0 := by decide
example : octaveLoop 15359 = (9, 1535) := by decide
example : NoteToDacCode (fun i => 54586 - 5133 * i) (60 * 128) = 28921 := by decide
example : NoteToDacCode (fun i => 54586 - 5133 * i) 0 = 54586 := by decide

/-- The read-only resource tables consulted by the voice, injected as
abstract functions (they live in yarns/resources.cc, outside the core):
`envExpo phase` is Interpolate824(lut_env_expo, phase) (a uint16_t),
`lfoIncrements` is lut_lfo_increments (uint32_t entries),
`portamentoIncrements` is lut_portamento_increments (uint32_t entries),
`waveform i phase` is Interpolate824(waveform_table[i], phase) (an int16_t). -/
structure Tables where
  envExpo : ℕ → ℕ
  lfoIncrements : ℕ → ℕ
  portamentoIncrements : ℕ → ℕ
  waveform : ℕ → ℕ → ℤ

/-- Trigger shape enum values (TRIGGER_SHAPE_SQUARE, TRIGGER_SHAPE_LINEAR,
TRIGGER_SHAPE_EXPONENTIAL, further decay-curve shapes follow). -/
def TRIGGER_SHAPE_SQUARE : ℕ := 0

/-- TRIGGER_SHAPE_LINEAR enum value. -/
def TRIGGER_SHAPE_LINEAR : ℕ := 1

/-- TRIGGER_SHAPE_EXPONENTIAL enum value. -/
def TRIGGER_SHAPE_EXPONENTIAL : ℕ := 2

/-- Recognized MIDI controller numbers (from the MIDI layer's header). -/
def kCCModulationWheelMsb : ℕ := 1

/-- Breath controller CC number. -/
def kCCBreathController : ℕ := 2

/-- Foot pedal CC number. -/
def kCCFootPedalMsb : ℕ := 4

/-- The mutable state of one `Voice`.  Signed int32_t fields are ℤ,
unsigned fields are ℕ (phase accumulators are kept below 2^32 by the
explicit `% 2^32` in the operations). -/
structure Voice where
  note : ℤ
  noteSource : ℤ
  noteTarget : ℤ
  notePortamento : ℤ
  gate : Bool
  modVelocity : ℕ
  modWheel : ℕ
  modPitchBend : ℕ
  modAux : Fin 8 → ℕ
  modulationRate : ℕ
  pitchBendRange : ℕ
  vibratoRange : ℕ
  tuning : ℤ
  lfoPhase : ℕ
  lfoPllPhaseIncrement : ℕ
  portamentoPhase : ℕ
  portamentoPhaseIncrement : ℕ
  portamentoExponentialShape : Bool
  retriggerDelay : ℕ
  triggerPulse : ℕ
  triggerDuration : ℕ
  triggerPhase : ℕ
  triggerPhaseIncrement : ℕ
  triggerShape : ℕ
  triggerScale : Bool
  calibratedDacCode : ℕ → ℕ
  noteDacCode : ℕ
  dirty : Bool

/-- `Voice::ResetAllControllers`: center the pitch bend, zero the wheel,
and std::fill(&mod_aux_[0], &mod_aux_[7], 0) — i.e. zero entries 0..6. -/
def ResetAllControllers (v : Voice) : Voice :=
  { v with
    modPitchBend := 8192
    modWheel := 0
    modAux := fun i => if i.val < 7 then 0 else v.modAux i }

/-- `Voice::Init`: reset pitch state, controllers and configuration;
optionally rewrite the calibration table with the default linear codes
54586 - 5133 * octave.  (The embedded oscillator sub-object initialized at
the end of Init is outside the modelled state.) -/
def Init (resetCalibration : Bool) (v : Voice) : Voice :=
  let v1 : Voice :=
    { v with
      note := -1
      noteSource := 60 * 128
      noteTarget := 60 * 128
      notePortamento := 60 * 128
      gate := false
      modVelocity := 0 }
  let v2 := ResetAllControllers v1
  { v2 with
    modulationRate := 0
    pitchBendRange := 2
    vibratoRange := 0
    lfoPhase := 0
    portamentoPhase := 0
    portamentoPhaseIncrement := 2 ^ 31
    portamentoExponentialShape := false
    triggerDuration := 2
    calibratedDacCode :=
      if resetCalibration then
        fun i => if i < kNumOctaves then 54586 - 5133 * i else v2.calibratedDacCode i
      else v2.calibratedDacCode
    dirty := false }

/-- The triangle LFO computed in `Voice::Refresh` from the (uint32) phase:
lfo_phase < 1UL << 31 ? -32768 + (phase >> 15) : 0x17fff - (phase >> 15). -/
def lfoTriangle (phase : ℕ) : ℤ :=
  if phase < 2 ^ 31 then -32768 + ((phase >>> 15 : ℕ) : ℤ)
  else 0x17fff - ((phase >>> 15 : ℕ) : ℤ)

/-- `Voice::Refresh`: advance the portamento phase (with wraparound
completion detection), compute the interpolated pitch, add bend, tuning
and vibrato, publish the auxiliary modulation channels, step the
retrigger / trigger-pulse countdowns and the trigger phase, and
recompute the pitch DAC code when the note changed or `dirty_` is set. -/
def Refresh (t : Tables) (v : Voice) : Voice :=
  let pp0 := (v.portamentoPhase + v.portamentoPhaseIncrement) % 2 ^ 32
  let wrapped := pp0 < v.portamentoPhaseIncrement
  let pp := if wrapped then 0 else pp0
  let ppi := if wrapped then 0 else v.portamentoPhaseIncrement
  let src := if wrapped then v.noteTarget else v.noteSource
  let portamentoLevel : ℕ :=
    if v.portamentoExponentialShape then t.envExpo pp else pp >>> 16
  let note0 : ℤ := src + asr ((v.noteTarget - src) * portamentoLevel) 16
  let note1 : ℤ :=
    note0 + asr (((v.modPitchBend : ℤ) - 8192) * (v.pitchBendRange : ℤ)) 6
  let note2 : ℤ := note1 + v.tuning
  let lfoPhase :=
    (v.lfoPhase +
      (if v.modulationRate < 100 then t.lfoIncrements v.modulationRate
       else v.lfoPllPhaseIncrement)) % 2 ^ 32
  let lfo : ℤ := lfoTriangle lfoPhase
  let note3 : ℤ := note2 + asr (lfo * (v.modWheel : ℤ) * (v.vibratoRange : ℤ)) 15
  let modAux1 : Fin 8 → ℕ := fun i =>
    if i.val = 0 then (v.modVelocity <<< 9) % 65536
    else if i.val = 1 then (v.modWheel <<< 9) % 65536
    else if i.val = 5 then ((v.modPitchBend % 65536) <<< 2) % 65536
    else if i.val = 6 then toUInt16 (asr (lfo * (v.modWheel : ℤ)) 7 + 32768)
    else if i.val = 7 then toUInt16 (lfo + 32768)
    else v.modAux i
  let tp0 := (v.triggerPhase + v.triggerPhaseIncrement) % 2 ^ 32
  let tWrapped := tp0 < v.triggerPhaseIncrement
  let tp := if v.triggerPhaseIncrement ≠ 0 then (if tWrapped then 0 else tp0)
            else v.triggerPhase
  let tpi := if v.triggerPhaseIncrement ≠ 0 then (if tWrapped then 0 else v.triggerPhaseIncrement)
             else v.triggerPhaseIncrement
  { v with
    portamentoPhase := pp
    portamentoPhaseIncrement := ppi
    noteSource := src
    notePortamento := note0
    lfoPhase := lfoPhase
    modAux := modAux1
    retriggerDelay := v.retriggerDelay - 1
    triggerPulse := v.triggerPulse - 1
    triggerPhase := tp
    triggerPhaseIncrement := tpi
    note := if note3 ≠ v.note ∨ v.dirty then note3 else v.note
    noteDacCode :=
      if note3 ≠ v.note ∨ v.dirty then NoteToDacCode v.calibratedDacCode note3
      else v.noteDacCode
    dirty := if note3 ≠ v.note ∨ v.dirty then false else v.dirty }

/-- Iterated `Refresh`: `RefreshN t k v` is the state after k ticks. -/
def RefreshN (t : Tables) : ℕ → Voice → Voice
  | 0, v => v
  | k + 1, v => RefreshN t k (Refresh t v)

/-- `Voice::NoteOn(note, velocity, portamento, trigger)`: retarget the
glide (starting from the current interpolated pitch, or snapping when
portamento is 0), select the glide shape and increment from the
portamento amount, store velocity, arm retrigger/trigger, set the gate. -/
def NoteOn (t : Tables) (note : ℤ) (velocity portamento : ℕ) (trigger : Bool)
    (v : Voice) : Voice :=
  let noteSource0 := v.notePortamento
  let noteTarget := note
  let noteSource := if portamento = 0 then noteTarget else noteSource0
  let branch : ℕ × Bool :=
    if portamento ≤ 50 then
      (t.portamentoIncrements (portamento <<< 1) % 2 ^ 32, true)
    else
      let baseIncrement := t.portamentoIncrements ((portamento - 51) <<< 1) % 2 ^ 32
      let delta : ℕ := ((noteTarget - noteSource).natAbs + 1)
      let inc0 := ((1536 * (baseIncrement >>> 11) / delta) <<< 11) % 2 ^ 32
      let inc1 := if inc0 < 1 then 1 else if 2147483647 < inc0 then 2147483647 else inc0
      (inc1, false)
  { v with
    noteSource := noteSource
    noteTarget := noteTarget
    portamentoPhase := 0
    portamentoPhaseIncrement := branch.1
    portamentoExponentialShape := branch.2
    modVelocity := velocity
    retriggerDelay := if v.gate ∧ trigger then 2 else v.retriggerDelay
    triggerPulse := if trigger then v.triggerDuration * 8 else v.triggerPulse
    triggerPhase := if trigger then 0 else v.triggerPhase
    triggerPhaseIncrement :=
      if trigger then t.portamentoIncrements v.triggerDuration % 2 ^ 32
      else v.triggerPhaseIncrement
    gate := true }

/-- `Voice::NoteOff`: clears the gate only. -/
def NoteOff (v : Voice) : Voice := { v with gate := false }

/-- `Voice::ControlChange`: mod wheel, breath and foot pedal updates;
all other controller numbers are ignored. -/
def ControlChange (controller value : ℕ) (v : Voice) : Voice :=
  if controller = kCCModulationWheelMsb then { v with modWheel := value }
  else if controller = kCCBreathController then
    { v with modAux := fun i => if i.val = 3 then (value <<< 9) % 65536 else v.modAux i }
  else if controller = kCCFootPedalMsb then
    { v with modAux := fun i => if i.val = 4 then (value <<< 9) % 65536 else v.modAux i }
  else v

/-- `Voice::trigger_dac_code`: pull-based trigger/envelope output code.
While the phase is at or below one increment past zero the calibrated
0V code (entry 3) is returned; otherwise the shape value, scaled by the
velocity coefficient, is mapped into the calibrated min/max codes. -/
def trigger_dac_code (t : Tables) (v : Voice) : ℕ :=
  if v.triggerPhase ≤ v.triggerPhaseIncrement then
    v.calibratedDacCode 3
  else
    let velocityCoefficient : ℤ :=
      if v.triggerScale then ((v.modVelocity <<< 8 : ℕ) : ℤ) else 32768
    let value : ℤ :=
      if v.triggerShape = TRIGGER_SHAPE_SQUARE then 32767
      else if v.triggerShape = TRIGGER_SHAPE_LINEAR then
        32767 - ((v.triggerPhase >>> 17 : ℕ) : ℤ)
      else t.waveform (v.triggerShape - TRIGGER_SHAPE_EXPONENTIAL) v.triggerPhase
    let value1 := asr (value * velocityCoefficient) 15
    let mx : ℤ := v.calibratedDacCode 8
    let mn : ℤ := v.calibratedDacCode 3
    toUInt16 (mn + asr ((mx - mn) * value1) 15)

/-- Default linear calibration table written by `Init(reset_calibration=true)`. -/
def defaultCal : ℕ → ℕ := fun i => 54586 - 5133 * i

/-- An increasing calibration table used to instantiate monotonicity. -/
def risingCal : ℕ → ℕ := fun i => 1000 * i

lemma octaveLoopGo_eq (fuel : ℕ) : ∀ octave n, n ≤ fuel →
    octaveLoopGo fuel octave n = (octave + n / 1536, n % 1536) := by
  induction fuel with
  | zero =>
    intro octave n hn
    have : n = 0 := Nat.le_zero.mp hn
    subst this
    simp [octaveLoopGo]
  | succ fuel ih =>
    intro octave n hn
    by_cases h : n < 1536
    · have h1 : n / 1536 = 0 := Nat.div_eq_of_lt h
      have h2 : n % 1536 = n := Nat.mod_eq_of_lt h
      simp [octaveLoopGo, h, h1, h2]
    · have hrec : n - 1536 ≤ fuel := by omega
      have := ih (octave + 1) (n - 1536) hrec
      simp only [octaveLoopGo, if_neg h, this, Prod.mk.injEq]
      omega

lemma octaveLoop_eq (n : ℕ) : octaveLoop n = (n / 1536, n % 1536) := by
  have := octaveLoopGo_eq n 0 n le_rfl
  simpa [octaveLoop] using this

lemma clampNote_bounds (note : ℤ) : 0 ≤ clampNote note ∧ clampNote note < kMaxNote := by
  simp only [clampNote, kMaxNote]
  split <;> split <;> omega

lemma clampNote_of_range (note : ℤ) (h0 : 0 ≤ note) (h1 : note < kMaxNote) :
    clampNote note = note := by
  simp only [clampNote, kMaxNote] at *
  split <;> split <;> omega

lemma tdiv_natCast (m n : ℕ) : Int.tdiv (m : ℤ) (n : ℤ) = ((m / n : ℕ) : ℤ) := rfl

lemma toUInt16_natCast (k : ℕ) (h : k < 65536) : toUInt16 ((k : ℕ) : ℤ) = k := by
  have h0 : (0 : ℤ) ≤ (k : ℤ) := Int.natCast_nonneg k
  have h1 : (k : ℤ) < 65536 := by exact_mod_cast h
  have h2 : Int.emod ((k : ℕ) : ℤ) 65536 = ((k : ℕ) : ℤ) := Int.emod_eq_of_lt h0 h1
  rw [toUInt16, h2, Int.toNat_natCast]

/-- The interpolation term is bounded by the entry gap. -/
lemma interp_le_gap (d r : ℕ) (hr : r < 1536) : d * r / 1536 ≤ d := by
  have h1 : d * r ≤ d * 1536 := Nat.mul_le_mul_left d (le_of_lt hr)
  calc d * r / 1536 ≤ d * 1536 / 1536 := Nat.div_le_div_right h1
    _ = d := Nat.mul_div_cancel d (by norm_num)

/-- Closed ℕ-form of the quantizer on an in-range note, for a table that
is nondecreasing at the containing bracket and fits in uint16. -/
lemma noteToDacCode_eq (cal : ℕ → ℕ) (z : ℕ) (hz : z < 15360)
    (hab : cal (z / 1536) ≤ cal (z / 1536 + 1))
    (hb : cal (z / 1536 + 1) < 65536) :
    NoteToDacCode cal z =
      cal (z / 1536) + (cal (z / 1536 + 1) - cal (z / 1536)) * (z % 1536) / 1536 := by
  have hclamp : clampNote (z : ℤ) = (z : ℤ) := by
    apply clampNote_of_range
    · exact Int.natCast_nonneg z
    · simp only [kMaxNote]
      exact_mod_cast hz
  have ha : cal (z / 1536) < 65536 := lt_of_le_of_lt hab hb
  set o := z / 1536 with ho
  set a := cal o with ha2
  set b := cal (o + 1) with hb2
  set r := z % 1536 with hr2
  have hr : r < 1536 := Nat.mod_lt z (by norm_num)
  have hcast : ((b : ℤ) - (a : ℤ)) * ((r : ℕ) : ℤ) = (((b - a) * r : ℕ) : ℤ) := by
    have : ((b : ℤ) - (a : ℤ)) = (((b - a : ℕ)) : ℤ) := by
      omega
    rw [this]
    exact_mod_cast rfl
  have hkey : (a : ℤ) + Int.tdiv (((b : ℤ) - (a : ℤ)) * ((r : ℕ) : ℤ)) kOctave =
      (((a + (b - a) * r / 1536 : ℕ)) : ℤ) := by
    rw [hcast]
    have : kOctave = ((1536 : ℕ) : ℤ) := by simp [kOctave]
    rw [this, tdiv_natCast]
    push_cast
    ring
  have hbound : a + (b - a) * r / 1536 < 65536 := by
    have h1 : (b - a) * r / 1536 ≤ b - a := interp_le_gap (b - a) r hr
    omega
  simp only [NoteToDacCode, hclamp, Int.toNat_natCast, octaveLoop_eq]
  rw [hkey]
  exact toUInt16_natCast _ hbound

/-- C2: clamping behaviour of NoteToDacCode and the octave-index bound. -/
theorem boundary_clamp (cal : ℕ → ℕ) (note : ℤ) :
    (note ≤ 0 → NoteToDacCode cal note = NoteToDacCode cal 0) ∧
    (kMaxNote ≤ note → NoteToDacCode cal note = NoteToDacCode cal (kMaxNote - 1)) ∧
    (cal 0 < 65536 → NoteToDacCode cal 0 = cal 0) ∧
    (octaveLoop (clampNote note).toNat).1 + 1 ≤ kNumOctaves - 1 := by
  refine ⟨?_, ?_, ?_, ?_⟩
  · intro h
    have h1 : clampNote note = clampNote 0 := by
      simp only [clampNote, kMaxNote]
      split <;> split <;> omega
    simp only [NoteToDacCode, h1]
  · intro h
    have h1 : clampNote note = clampNote (kMaxNote - 1) := by
      simp only [clampNote, kMaxNote] at *
      split <;> split <;> omega
    simp only [NoteToDacCode, h1]
  · intro h
    have h1 : clampNote 0 = 0 := by
      simp only [clampNote, kMaxNote]
      norm_num
    have h2 : octaveLoop 0 = (0, 0) := by decide
    simp only [NoteToDacCode, h1, Int.toNat_zero, h2, Nat.cast_zero, mul_zero,
      Int.zero_tdiv, add_zero]
    exact toUInt16_natCast _ h
  · have hb := clampNote_bounds note
    have hlt : (clampNote note).toNat < 15360 := by
      simp only [kMaxNote] at hb
      omega
    rw [octaveLoop_eq]
    simp only [kNumOctaves]
    omega

/-- Witness for boundary_clamp at concrete inputs. -/
theorem boundary_clamp_witness :
    NoteToDacCode defaultCal (-5) = NoteToDacCode defaultCal 0 ∧
    NoteToDacCode defaultCal 99999 = NoteToDacCode defaultCal (kMaxNote - 1) ∧
    NoteToDacCode defaultCal 0 = defaultCal 0 :=
  ⟨(boundary_clamp defaultCal (-5)).1 (by norm_num),
   (boundary_clamp defaultCal 99999).2.1 (by norm_num [kMaxNote]),
   (boundary_clamp defaultCal 0).2.2.1 (by norm_num [defaultCal])⟩

lemma cal_chain_mono (cal : ℕ → ℕ) (hmono : ∀ i, i < 10 → cal i ≤ cal (i + 1)) :
    ∀ j, j ≤ 10 → ∀ i, i ≤ j → cal i ≤ cal j := by
  intro j
  induction j with
  | zero =>
    intro _ i hi
    have : i = 0 := Nat.le_zero.mp hi
    subst this
    exact le_rfl
  | succ j ih =>
    intro hj i hi
    by_cases h : i = j + 1
    · subst h
      exact le_rfl
    · exact le_trans (ih (by omega) i (by omega)) (hmono j (by omega))

lemma dac_formula_mono (cal : ℕ → ℕ)
    (hmono : ∀ i, i < 10 → cal i ≤ cal (i + 1))
    (x y : ℕ) (hxy : x ≤ y) (hy : y < 15360) :
    cal (x / 1536) + (cal (x / 1536 + 1) - cal (x / 1536)) * (x % 1536) / 1536 ≤
    cal (y / 1536) + (cal (y / 1536 + 1) - cal (y / 1536)) * (y % 1536) / 1536 := by
  have hox : x / 1536 ≤ y / 1536 := Nat.div_le_div_right hxy
  by_cases hsame : x / 1536 = y / 1536
  · rw [hsame]
    have hrem : x % 1536 ≤ y % 1536 := by omega
    exact Nat.add_le_add_left (Nat.div_le_div_right (Nat.mul_le_mul_left _ hrem)) _
  · have hlt : x / 1536 < y / 1536 := lt_of_le_of_ne hox hsame
    have hyo : y / 1536 ≤ 9 := by omega
    have hxr : x % 1536 < 1536 := Nat.mod_lt x (by norm_num)
    have h1 : cal (x / 1536) + (cal (x / 1536 + 1) - cal (x / 1536)) * (x % 1536) / 1536
        ≤ cal (x / 1536 + 1) := by
      have h2 := interp_le_gap (cal (x / 1536 + 1) - cal (x / 1536)) (x % 1536) hxr
      have h3 : cal (x / 1536) ≤ cal (x / 1536 + 1) := hmono _ (by omega)
      omega
    have h4 : cal (x / 1536 + 1) ≤ cal (y / 1536) :=
      cal_chain_mono cal hmono (y / 1536) (by omega) (x / 1536 + 1) (by omega)
    exact le_trans (le_trans h1 h4) (Nat.le_add_right _ _)

/-- C1: for a calibration table monotonic (nondecreasing) across octave
index and with uint16 entries, NoteToDacCode is monotone on the valid
note range [0, kMaxNote). -/
theorem quantization_monotonic (cal : ℕ → ℕ)
    (hmono : ∀ i, i < 10 → cal i ≤ cal (i + 1))
    (hbound : ∀ i, i ≤ 10 → cal i < 65536)
    (n1 n2 : ℤ) (h0 : 0 ≤ n1) (h12 : n1 < n2) (h2 : n2 < kMaxNote) :
    NoteToDacCode cal n1 ≤ NoteToDacCode cal n2 := by
  have h0' : 0 ≤ n2 := by omega
  lift n1 to ℕ using h0 with x
  lift n2 to ℕ using h0' with y
  have hy : y < 15360 := by
    simp only [kMaxNote] at h2
    exact_mod_cast h2
  have hxy : x ≤ y := by exact_mod_cast le_of_lt h12
  have hx : x < 15360 := lt_of_le_of_lt hxy hy
  have hxo : x / 1536 < 10 := by omega
  have hyo : y / 1536 < 10 := by omega
  rw [noteToDacCode_eq cal x hx (hmono _ hxo) (hbound _ (by omega)),
      noteToDacCode_eq cal y hy (hmono _ hyo) (hbound _ (by omega))]
  exact dac_formula_mono cal hmono x y hxy hy

/-- Witness for quantization_monotonic on a concrete rising table. -/
theorem quantization_monotonic_witness :
    NoteToDacCode risingCal 100 ≤ NoteToDacCode risingCal 5000 :=
  quantization_monotonic risingCal
    (by intro i _; simp only [risingCal]; omega)
    (by intro i hi; simp only [risingCal]; omega)
    100 5000 (by norm_num) (by norm_num) (by norm_num [kMaxNote])

/-- Concrete resource tables for instantiating theorems on closed inputs. -/
def testTables : Tables where
  envExpo := fun _ => 0
  lfoIncrements := fun _ => 3
  portamentoIncrements := fun _ => 5
  waveform := fun _ _ => 0

/-- A concrete voice state for instantiating theorems on closed inputs. -/
def testVoice : Voice where
  note := -1
  noteSource := 7680
  noteTarget := 7680
  notePortamento := 7680
  gate := false
  modVelocity := 0
  modWheel := 0
  modPitchBend := 8192
  modAux := fun _ => 0
  modulationRate := 0
  pitchBendRange := 2
  vibratoRange := 0
  tuning := 0
  lfoPhase := 0
  lfoPllPhaseIncrement := 0
  portamentoPhase := 0
  portamentoPhaseIncrement := 2 ^ 31
  portamentoExponentialShape := false
  retriggerDelay := 0
  triggerPulse := 0
  triggerDuration := 2
  triggerPhase := 0
  triggerPhaseIncrement := 0
  triggerShape := 0
  triggerScale := false
  calibratedDacCode := defaultCal
  noteDacCode := 0
  dirty := false

/-- A voice one tick away from portamento phase wraparound. -/
def glideVoice : Voice :=
  { testVoice with portamentoPhase := 2 ^ 32 - 1, portamentoPhaseIncrement := 5 }

/-- C3: on the Refresh tick where the portamento phase accumulator wraps,
phase and increment reset to zero, the source snaps to the target, and
the interpolated pitch computed on that same tick is exactly the target. -/
theorem glide_completion (t : Tables) (v : Voice)
    (hprog : 0 < v.portamentoPhaseIncrement)
    (hwrap : (v.portamentoPhase + v.portamentoPhaseIncrement) % 2 ^ 32
             < v.portamentoPhaseIncrement) :
    (Refresh t v).portamentoPhase = 0 ∧
    (Refresh t v).portamentoPhaseIncrement = 0 ∧
    (Refresh t v).noteSource = v.noteTarget ∧
    (Refresh t v).notePortamento = v.noteTarget := by
  have hwrap' : (v.portamentoPhase + v.portamentoPhaseIncrement) % 4294967296
      < v.portamentoPhaseIncrement := hwrap
  refine ⟨?_, ?_, ?_, ?_⟩ <;>
    simp [Refresh, if_pos hwrap', asr, sub_self, zero_mul, Int.zero_fdiv, add_zero]

/-- Witness for glide_completion on a concrete wrapping state. -/
theorem glide_completion_witness :
    (Refresh testTables glideVoice).portamentoPhase = 0 ∧
    (Refresh testTables glideVoice).portamentoPhaseIncrement = 0 ∧
    (Refresh testTables glideVoice).noteSource = glideVoice.noteTarget ∧
    (Refresh testTables glideVoice).notePortamento = glideVoice.noteTarget :=
  glide_completion testTables glideVoice (by decide) (by decide)

/-- C4: NoteOn with zero portamento snaps the source to the target (and
the interpolated pitch reaches the new target within one Refresh); NoteOn
with nonzero portamento starts the glide from the current interpolated
pitch note_portamento, not from the previous target or source. -/
theorem legato_glide_restart (t : Tables) (note : ℤ) (velocity portamento : ℕ)
    (trigger : Bool) (v : Voice) :
    ((NoteOn t note velocity portamento trigger v).noteTarget = note) ∧
    (portamento = 0 →
      (NoteOn t note velocity portamento trigger v).noteSource = note ∧
      (Refresh t (NoteOn t note velocity portamento trigger v)).notePortamento = note) ∧
    (portamento ≠ 0 →
      (NoteOn t note velocity portamento trigger v).noteSource = v.notePortamento) := by
  refine ⟨?_, ?_, ?_⟩
  · simp [NoteOn]
  · intro h
    subst h
    refine ⟨by simp [NoteOn], ?_⟩
    simp [Refresh, NoteOn, ite_self, sub_self, zero_mul, asr, Int.zero_fdiv, add_zero]
  · intro h
    simp [NoteOn, h]

/-- Witness for legato_glide_restart at concrete inputs. -/
theorem legato_glide_restart_witness :
    (NoteOn testTables 100 10 0 false testVoice).noteSource = 100 ∧
    (NoteOn testTables 200 10 30 false testVoice).noteSource = testVoice.notePortamento :=
  ⟨((legato_glide_restart testTables 100 10 0 false testVoice).2.1 rfl).1,
   (legato_glide_restart testTables 200 10 30 false testVoice).2.2 (by norm_num)⟩

/-- C5 counterexample: the claim says that for phases at or above the
half-period the output "ramps further positive"; in the code the output
at phase 2^31 is already the maximum 32767 and then decreases.  Also the
first half does not stop "toward zero": just below the half-period the
output is 32767, far above zero. -/
theorem lfo_claim_counterexample :
    lfoTriangle (2 ^ 31) = 32767 ∧
    lfoTriangle (2 ^ 31 + 2 ^ 15) = 32766 ∧
    ¬ (lfoTriangle (2 ^ 31) ≤ lfoTriangle (2 ^ 31 + 2 ^ 15)) ∧
    lfoTriangle (2 ^ 31 - 2 ^ 15) = 32767 := by
  refine ⟨by decide, by decide, by decide, by decide⟩

/-- C5 amended: the LFO is a symmetric triangle: below the half-period it
ramps monotonically from the most negative value -32768 up (through zero)
to the most positive value 32767; at or above the half-period it ramps
monotonically back down to -32768, and then the phase wraps. -/
theorem lfo_triangle_shape :
    (∀ p1 p2 : ℕ, p1 ≤ p2 → p2 < 2 ^ 31 → lfoTriangle p1 ≤ lfoTriangle p2) ∧
    (∀ p1 p2 : ℕ, 2 ^ 31 ≤ p1 → p1 ≤ p2 → p2 < 2 ^ 32 → lfoTriangle p2 ≤ lfoTriangle p1) ∧
    lfoTriangle 0 = -32768 ∧
    lfoTriangle (2 ^ 31 - 1) = 32767 ∧
    lfoTriangle (2 ^ 31) = 32767 ∧
    lfoTriangle (2 ^ 32 - 1) = -32768 := by
  refine ⟨?_, ?_, by decide, by decide, by decide, by decide⟩
  · intro p1 p2 h12 h2
    have h1 : p1 < 2 ^ 31 := lt_of_le_of_lt h12 h2
    have hsh : p1 >>> 15 ≤ p2 >>> 15 := by
      simp only [Nat.shiftRight_eq_div_pow]
      exact Nat.div_le_div_right h12
    simp only [lfoTriangle, if_pos h1, if_pos h2]
    omega
  · intro p1 p2 hp1 h12 h2
    have h1' : ¬ (p1 < 2 ^ 31) := by omega
    have h2' : ¬ (p2 < 2 ^ 31) := by omega
    have hsh : p1 >>> 15 ≤ p2 >>> 15 := by
      simp only [Nat.shiftRight_eq_div_pow]
      exact Nat.div_le_div_right h12
    simp only [lfoTriangle, if_neg h1', if_neg h2']
    omega

/-- Witness for lfo_triangle_shape at concrete phases. -/
theorem lfo_triangle_shape_witness :
    lfoTriangle 0 ≤ lfoTriangle (2 ^ 30) ∧
    lfoTriangle (2 ^ 31 + 5) ≤ lfoTriangle (2 ^ 31) :=
  ⟨lfo_triangle_shape.1 0 (2 ^ 30) (by norm_num) (by norm_num),
   lfo_triangle_shape.2.1 (2 ^ 31) (2 ^ 31 + 5) le_rfl (by norm_num) (by norm_num)⟩

lemma refresh_trigger_phase_le (t : Tables) (v : Voice) (h0 : v.triggerPhase = 0)
    (hI : v.triggerPhaseIncrement < 2 ^ 32) :
    (Refresh t v).triggerPhase ≤ (Refresh t v).triggerPhaseIncrement := by
  simp only [Refresh, h0]
  split_ifs <;> omega

/-- C6: while gated, a NoteOn with trigger requested arms retrigger_delay
to the non-zero value 2, and while that countdown is pending (on the tick
of the NoteOn and again after one Refresh) the trigger output code is
still the calibrated 0V code, not the new envelope. -/
theorem retrigger_gap (t : Tables) (note : ℤ) (velocity portamento : ℕ) (v : Voice)
    (hgate : v.gate = true) :
    (NoteOn t note velocity portamento true v).retriggerDelay = 2 ∧
    trigger_dac_code t (NoteOn t note velocity portamento true v)
      = v.calibratedDacCode 3 ∧
    (Refresh t (NoteOn t note velocity portamento true v)).retriggerDelay = 1 ∧
    trigger_dac_code t (Refresh t (NoteOn t note velocity portamento true v))
      = v.calibratedDacCode 3 := by
  set v1 := NoteOn t note velocity portamento true v with hv1
  have hd : v1.retriggerDelay = 2 := by simp [hv1, NoteOn, hgate]
  have hph : v1.triggerPhase = 0 := by simp [hv1, NoteOn]
  have hcal : v1.calibratedDacCode = v.calibratedDacCode := by simp [hv1, NoteOn]
  have hIlt : v1.triggerPhaseIncrement < 2 ^ 32 := by
    simp only [hv1, NoteOn, if_true]
    omega
  refine ⟨hd, ?_, ?_, ?_⟩
  · rw [trigger_dac_code, if_pos (by rw [hph]; exact Nat.zero_le _), hcal]
  · simp [Refresh, hd]
  · have hle := refresh_trigger_phase_le t v1 hph hIlt
    have hcal2 : (Refresh t v1).calibratedDacCode = v.calibratedDacCode := by
      simp [Refresh, hcal]
    rw [trigger_dac_code, if_pos hle, hcal2]

/-- A concrete gated voice for instantiating the retrigger theorems. -/
def gatedVoice : Voice := { testVoice with gate := true }

/-- Witness for retrigger_gap on a concrete gated state. -/
theorem retrigger_gap_witness :
    (NoteOn testTables 100 10 0 true gatedVoice).retriggerDelay = 2 ∧
    trigger_dac_code testTables (NoteOn testTables 100 10 0 true gatedVoice)
      = gatedVoice.calibratedDacCode 3 ∧
    (Refresh testTables (NoteOn testTables 100 10 0 true gatedVoice)).retriggerDelay = 1 ∧
    trigger_dac_code testTables (Refresh testTables (NoteOn testTables 100 10 0 true gatedVoice))
      = gatedVoice.calibratedDacCode 3 :=
  retrigger_gap testTables 100 10 0 gatedVoice (by decide)

lemma refresh_trigger_pulse (t : Tables) (v : Voice) :
    (Refresh t v).triggerPulse = v.triggerPulse - 1 := by
  simp [Refresh]

lemma refreshN_trigger_pulse (t : Tables) (k : ℕ) (v : Voice) :
    (RefreshN t k v).triggerPulse = v.triggerPulse - k := by
  induction k generalizing v with
  | zero => simp [RefreshN]
  | succ k ih =>
    have := ih (Refresh t v)
    simp only [RefreshN, this, refresh_trigger_pulse]
    omega

/-- C7: NoteOn with trigger requested arms trigger_pulse to
trigger_duration * 8; each Refresh decrements it (floored at zero), so it
is still positive after any k < trigger_duration * 8 ticks and reaches
zero exactly at trigger_duration * 8 ticks. -/
theorem trigger_pulse_exact (t : Tables) (note : ℤ) (velocity portamento : ℕ)
    (v : Voice) :
    (NoteOn t note velocity portamento true v).triggerPulse
      = v.triggerDuration * 8 ∧
    (∀ k, (RefreshN t k (NoteOn t note velocity portamento true v)).triggerPulse
      = v.triggerDuration * 8 - k) ∧
    (∀ k, k < v.triggerDuration * 8 →
      0 < (RefreshN t k (NoteOn t note velocity portamento true v)).triggerPulse) ∧
    (RefreshN t (v.triggerDuration * 8)
      (NoteOn t note velocity portamento true v)).triggerPulse = 0 := by
  have h1 : (NoteOn t note velocity portamento true v).triggerPulse
      = v.triggerDuration * 8 := by simp [NoteOn]
  have h2 : ∀ k, (RefreshN t k (NoteOn t note velocity portamento true v)).triggerPulse
      = v.triggerDuration * 8 - k := by
    intro k
    rw [refreshN_trigger_pulse, h1]
  refine ⟨h1, h2, ?_, ?_⟩
  · intro k hk
    rw [h2 k]
    omega
  · rw [h2]
    omega

/-- Witness for trigger_pulse_exact at a concrete state (duration 2). -/
theorem trigger_pulse_exact_witness :
    0 < (RefreshN testTables 15
      (NoteOn testTables 100 10 0 true testVoice)).triggerPulse ∧
    (RefreshN testTables (testVoice.triggerDuration * 8)
      (NoteOn testTables 100 10 0 true testVoice)).triggerPulse = 0 :=
  ⟨(trigger_pulse_exact testTables 100 10 0 testVoice).2.2.1 15 (by decide),
   (trigger_pulse_exact testTables 100 10 0 testVoice).2.2.2⟩

/-- C8: in the upper-half portamento branch (portamento > 50) the divisor
is the pitch distance plus one (hence positive), and the clamped phase
increment lies in [1, 2147483647] — in particular it is nonzero. -/
theorem portamento_increment_bounds (t : Tables) (note : ℤ)
    (velocity portamento : ℕ) (trigger : Bool) (v : Voice)
    (h : 50 < portamento) :
    0 < (note - v.notePortamento).natAbs + 1 ∧
    1 ≤ (NoteOn t note velocity portamento trigger v).portamentoPhaseIncrement ∧
    (NoteOn t note velocity portamento trigger v).portamentoPhaseIncrement
      ≤ 2147483647 := by
  refine ⟨Nat.succ_pos _, ?_⟩
  have hle : ¬ (portamento ≤ 50) := by omega
  have hne : ¬ (portamento = 0) := by omega
  simp only [NoteOn, if_neg hle, if_neg hne]
  split_ifs <;> omega

/-- Witness for portamento_increment_bounds at a concrete input. -/
theorem portamento_increment_bounds_witness :
    0 < ((100 : ℤ) - testVoice.notePortamento).natAbs + 1 ∧
    1 ≤ (NoteOn testTables 100 10 80 false testVoice).portamentoPhaseIncrement ∧
    (NoteOn testTables 100 10 80 false testVoice).portamentoPhaseIncrement
      ≤ 2147483647 :=
  portamento_increment_bounds testTables 100 10 80 false testVoice (by norm_num)

/-- C9: mod_aux[2] is zero after Init and is never written by NoteOn,
NoteOff, ControlChange (any controller/value) or Refresh. -/
theorem mod_aux_two_invariant :
    (∀ (rc : Bool) (v : Voice), (Init rc v).modAux 2 = 0) ∧
    (∀ (t : Tables) (note : ℤ) (velocity portamento : ℕ) (trigger : Bool) (v : Voice),
      (NoteOn t note velocity portamento trigger v).modAux 2 = v.modAux 2) ∧
    (∀ v : Voice, (NoteOff v).modAux 2 = v.modAux 2) ∧
    (∀ (c val : ℕ) (v : Voice), (ControlChange c val v).modAux 2 = v.modAux 2) ∧
    (∀ (t : Tables) (v : Voice), (Refresh t v).modAux 2 = v.modAux 2) := by
  refine ⟨?_, ?_, ?_, ?_, ?_⟩
  · intro rc v
    simp [Init, ResetAllControllers]
  · intro t note velocity portamento trigger v
    simp [NoteOn]
  · intro v
    simp [NoteOff]
  · intro c val v
    simp only [ControlChange]
    split_ifs <;> simp
  · intro t v
    simp [Refresh]

/-- C10: ResetAllControllers centers the pitch bend at 8192, zeroes the
wheel, zeroes exactly mod_aux[0..6] and leaves mod_aux[7] unchanged;
Init, which calls it, has the same effect on those fields. -/
theorem reset_controllers_frame (v : Voice) (rc : Bool) :
    (ResetAllControllers v).modPitchBend = 8192 ∧
    (ResetAllControllers v).modWheel = 0 ∧
    (∀ i : Fin 8, (ResetAllControllers v).modAux i
      = if i.val < 7 then 0 else v.modAux i) ∧
    (ResetAllControllers v).modAux 7 = v.modAux 7 ∧
    (Init rc v).modPitchBend = 8192 ∧
    (Init rc v).modWheel = 0 ∧
    (Init rc v).modAux 7 = v.modAux 7 := by
  refine ⟨rfl, rfl, fun i => rfl, ?_, ?_, ?_, ?_⟩
  · simp [ResetAllControllers, show ((7 : Fin 8) : ℕ) = 7 from rfl]
  · simp [Init, ResetAllControllers]
  · simp [Init, ResetAllControllers]
  · simp [Init, ResetAllControllers, show ((7 : Fin 8) : ℕ) = 7 from rfl]

end Yarns
